import Mathlib

/-!
Verification development for the Twython request/response/auth/error
pipeline (`src/twython/api.py`). Python values that can appear in a decoded
JSON body are embedded as `JVal`; the stateful request method `_request`
is embedded as `processResponse`, which takes the HTTP response together
with the outcome of the external `json.loads` call (`none` models a
`ValueError` during parsing) and returns the freshly written last-call
record together with either a decoded value or a raised exception.
Exceptions are split into the typed Twython exception values and untyped
Python runtime errors (AttributeError, TypeError, KeyError, IndexError),
mirroring exactly which operations in the source can raise which.
-/

set_option autoImplicit false

namespace TwythonModel

/-- Values produced by decoding a JSON body (the result of `json.loads`). -/
inductive JVal where
  | jnull
  | jbool (b : Bool)
  | jnum (n : Int)
  | jstr (s : String)
  | jarr (elems : List JVal)
  | jobj (fields : List (String × JVal))

/-- Python dict lookup `d.get(key)` on an object represented as a field list. -/
def jget (fields : List (String × JVal)) (key : String) : Option JVal :=
  (fields.find? (fun p => p.1 == key)).map Prod.snd

/-- Python truthiness of a decoded JSON value. -/
def truthy : JVal → Bool
  | .jnull => false
  | .jbool b => b
  | .jnum n => n != 0
  | .jstr s => s != ""
  | .jarr xs => !xs.isEmpty
  | .jobj fs => !fs.isEmpty

/-- Lower-casing of a string, written over the character list so that it
evaluates inside the kernel. -/
def lowerString (s : String) : String := String.mk (s.data.map Char.toLower)

/-- Case-insensitive header lookup, as performed by the CaseInsensitiveDict
of the underlying HTTP library (`response.headers.get(...)`). -/
def headerGet (hs : List (String × String)) (key : String) : Option String :=
  (hs.find? (fun p => lowerString p.1 == lowerString key)).map Prod.snd

/-- Lookup in a string-to-string mapping such as the parsed token response. -/
def sGet (m : List (String × String)) (k : String) : Option String :=
  (m.find? (fun p => p.1 == k)).map Prod.snd

/-- The kind of a typed Twython exception: TwythonError (generic),
TwythonAuthError, TwythonRateLimitError. -/
inductive ErrKind where
  | generic
  | auth
  | rateLimit
deriving DecidableEq

/-- Modelled from the spec: the exception classes live in the exceptions
module, which is not under src/; per the spec they are plain values
carrying a message, an HTTP status code and an optional retry-after value,
exactly the arguments `api.py` passes to their constructors. -/
structure TwyErr where
  kind : ErrKind
  msg : JVal
  error_code : Option Nat
  retry_after : Option String

/-- An exception escaping a pipeline function: either a typed Twython
exception or an untyped Python runtime error, recorded by its class name. -/
inductive PyError where
  | typed (e : TwyErr)
  | untyped (name : String)

/-- The HTTP response handed back by the transport client. -/
structure Response where
  status_code : Nat
  headers : List (String × String)
  cookies : List (String × String)
  url : String
  text : String

/-- The `self._last_call` diagnostic record written by `_request`. -/
structure LastCall where
  api_call : Option String
  api_error : Option JVal
  cookies : List (String × String)
  headers : List (String × String)
  status_code : Nat
  url : String
  content : String

/-- The default error list used when the body carries no `errors` field
(api.py line 118). -/
def defaultErrors : JVal :=
  .jarr [.jobj [("message", .jstr "An error occurred processing your request.")]]

/-- `content.get('errors', default)` (api.py line 118). Python attribute
semantics: only a dict has a `get` method, so a body that decoded to a
list, string, number, boolean or null raises AttributeError here. -/
def getErrorsField : JVal → Except String JVal
  | .jobj fs => .ok ((jget fs "errors").getD defaultErrors)
  | _ => .error "AttributeError"

/-- Api.py lines 120 to 123: when `errors` is a truthy list, take
`errors[0]['message']`; the subscript raises TypeError when the first
element is not a dict and KeyError when the key is missing. Otherwise the
`errors` value itself becomes the message. -/
def extractErrorMessage (errors : JVal) : Except String JVal :=
  match errors with
  | .jarr (first :: _) =>
    match first with
    | .jobj ffs =>
      match jget ffs "message" with
      | some m => .ok m
      | none => .error "KeyError"
    | _ => .error "TypeError"
  | e => .ok e

/-- The whole message extraction performed for a failing status: substitute
an empty dict for an unparseable body, read the `errors` field, extract the
message. -/
def extractedMessage (parsed : Option JVal) : Except String JVal :=
  (getErrorsField (parsed.getD (.jobj []))).bind extractErrorMessage

/-- Whether the first list is an initial segment of the second. -/
def startsWithList : List Char → List Char → Bool
  | [], _ => true
  | _ :: _, [] => false
  | a :: as, b :: bs => a == b && startsWithList as bs

/-- Whether the first list occurs contiguously inside the second. -/
def containsSub (needle : List Char) : List Char → Bool
  | [] => needle.isEmpty
  | c :: rest => startsWithList needle (c :: rest) || containsSub needle rest

/-- Python membership `sub in x` (api.py line 130): substring test on a
string, element equality on a list, key membership on a dict, TypeError on
null, booleans and numbers. -/
def pyIn (sub : String) : JVal → Except String Bool
  | .jstr s => .ok (containsSub sub.data s.data)
  | .jarr xs => .ok (xs.any (fun v => match v with | .jstr s => s == sub | _ => false))
  | .jobj fs => .ok (fs.any (fun p => p.1 == sub))
  | _ => .error "TypeError"

/-- A message value on which `pyIn` cannot raise. -/
def pyInSupported : JVal → Bool
  | .jstr _ => true
  | .jarr _ => true
  | .jobj _ => true
  | _ => false

/-- Embedding of `Twython._request` (api.py lines 89 to 143) from the point
where the response is available: write the last-call record, decode the
body (`parsed = none` models a ValueError from `json.loads`), and either
classify a failing status into a typed exception, reject invalid JSON on a
non-accepted status, or return the decoded value. -/
def processResponse (api_call : Option String) (resp : Response) (parsed : Option JVal) :
    LastCall × Except PyError JVal :=
  let json_error := parsed.isNone
  let content := parsed.getD (.jobj [])
  let base : LastCall :=
    { api_call := api_call, api_error := none, cookies := resp.cookies,
      headers := resp.headers, status_code := resp.status_code,
      url := resp.url, content := resp.text }
  if resp.status_code > 304 then
    match extractedMessage parsed with
    | .error e => (base, .error (.untyped e))
    | .ok error_message =>
      let recorded := { base with api_error := some error_message }
      let retry := headerGet resp.headers "retry-after"
      if resp.status_code = 429 then
        (recorded, .error (.typed ⟨.rateLimit, error_message, some resp.status_code, retry⟩))
      else if resp.status_code = 401 then
        (recorded, .error (.typed ⟨.auth, error_message, some resp.status_code, retry⟩))
      else
        match pyIn "Bad Authentication data" error_message with
        | .error e => (recorded, .error (.untyped e))
        | .ok true =>
          (recorded, .error (.typed ⟨.auth, error_message, some resp.status_code, retry⟩))
        | .ok false =>
          (recorded, .error (.typed ⟨.generic, error_message, some resp.status_code, retry⟩))
  else if json_error && !(resp.status_code == 200 || resp.status_code == 201 || resp.status_code == 202) then
    (base, .error (.typed ⟨.generic, .jstr "Response was not valid JSON, unable to decode.", none, none⟩))
  else
    (base, .ok content)

/-- Embedding of `Twython.get_lastfunction_header` (api.py lines 179 to 198):
raise when no call has been made, otherwise return the header value when
present and None when absent. -/
def get_lastfunction_header (last : Option LastCall) (header : String) :
    Except TwyErr (Option String) :=
  match last with
  | none =>
    .error ⟨.generic,
      .jstr "This function must be called after an API call.  It delivers header information.",
      none, none⟩
  | some lc => .ok (headerGet lc.headers header)

/-- The signing mode selected by `Twython.__init__`. -/
inductive AuthMode where
  | unsigned
  | appOnly
  | userContext
deriving DecidableEq

/-- Embedding of the credential logic of `Twython.__init__` (api.py lines
57 to 65): two successive conditionals over `is not None` tests, starting
from `auth = None`. -/
def initAuth (app_key app_secret oauth_token oauth_token_secret : Option String) : AuthMode :=
  let auth := AuthMode.unsigned
  let auth :=
    if app_key.isSome && app_secret.isSome && oauth_token.isNone && oauth_token_secret.isNone
    then AuthMode.appOnly else auth
  if app_key.isSome && app_secret.isSome && oauth_token.isSome && oauth_token_secret.isSome
  then AuthMode.userContext else auth

/-- Splitting a character list at every occurrence of a separator. -/
def splitOnChar (sep : Char) : List Char → List (List Char)
  | [] => [[]]
  | c :: rest =>
    let r := splitOnChar sep rest
    if c == sep then [] :: r
    else
      match r with
      | h :: t => (c :: h) :: t
      | [] => [[c]]

/-- Modelled from the spec: `parse_qsl` comes from the standard urllib,
imported through the compat module, which is not under src/. It splits a
url-encoded body into key/value pairs, dropping fields without a value
(keep_blank_values defaults to false). Percent-decoding is omitted; no
claim depends on it. -/
def parse_qsl (s : String) : List (String × String) :=
  (splitOnChar '&' s.data).filterMap (fun field =>
    match field.span (fun c => c != '=') with
    | (k, '=' :: v) => if v.isEmpty then none else some (String.mk k, String.mk v)
    | _ => none)

/-- Modelled from the spec: `urlencode` comes from the standard urllib,
which is not under src/. It joins pairs as k=v separated by ampersands;
percent-encoding is omitted, no claim depends on it. -/
def urlencode (ps : List (String × String)) : String :=
  String.intercalate "&" (ps.map (fun p => p.1 ++ "=" ++ p.2))

/-- The authenticate endpoint fixed in `Twython.__init__`. -/
def authenticate_url : String := "https://api.twitter.com/oauth/authenticate"

/-- Embedding of `Twython.get_authorized_tokens` (api.py lines 243 to 255):
parse the url-encoded access-token response body and fail with a generic
TwythonError exactly when the parsed mapping is empty. The status code of
the response is never inspected. -/
def get_authorized_tokens (resp : Response) : Except TwyErr (List (String × String)) :=
  let authorized_tokens := parse_qsl resp.text
  if authorized_tokens.isEmpty then
    .error ⟨.generic, .jstr "Unable to decode authorized tokens.", none, none⟩
  else .ok authorized_tokens

/-- Embedding of `Twython.get_authentication_tokens` (api.py lines 200 to
241), taking the request-token response produced by the transport call.
Two readings of `self.callback_url` occur in the source (lines 208 and
237); `Twython.__init__` never assigns that attribute and the endpoints
mixin holds only endpoint definitions, so each such read raises
AttributeError. Line 208 reads it only when the caller-supplied callback
is falsy (the `or` short-circuits), line 237 whenever a callback was
requested but the server did not confirm callback support. -/
def get_authentication_tokens (callback_url : Option String) (force_login : Bool)
    (screen_name : String) (resp : Response) : Except PyError (List (String × String)) :=
  let cb : Except PyError String :=
    match callback_url with
    | some s => if s = "" then .error (.untyped "AttributeError") else .ok s
    | none => .error (.untyped "AttributeError")
  match cb with
  | .error e => .error e
  | .ok _ =>
    if resp.status_code = 401 then
      .error (.typed ⟨.auth, .jstr resp.text, some resp.status_code, none⟩)
    else if resp.status_code ≠ 200 then
      .error (.typed ⟨.generic, .jstr resp.text, some resp.status_code, none⟩)
    else
      let request_tokens := parse_qsl resp.text
      if request_tokens.isEmpty then
        .error (.typed ⟨.generic, .jstr "Unable to decode request tokens.", none, none⟩)
      else
        let oauth_callback_confirmed := sGet request_tokens "oauth_callback_confirmed" == some "true"
        match sGet request_tokens "oauth_token" with
        | none => .error (.untyped "KeyError")
        | some tok =>
          let auth_url_params := [("oauth_token", tok)]
          let auth_url_params :=
            if force_login
            then auth_url_params ++ [("force_login", "True"), ("screen_name", screen_name)]
            else auth_url_params
          if !oauth_callback_confirmed then
            .error (.untyped "AttributeError")
          else
            .ok (request_tokens ++
              [("auth_url", authenticate_url ++ "?" ++ urlencode auth_url_params)])

/-- An error raised inside the try block of `search_gen` (api.py lines 318
to 322): TypeError and ValueError are caught and converted to the
pagination TwythonError, every other exception class propagates. -/
inductive TryErr where
  | caught (name : String)
  | uncaught (name : String)
deriving DecidableEq

/-- Python subscript `x[0]` on the statuses value. A non-empty list yields
its first element, a non-empty string its first character, an empty list
or string raises IndexError, a dict raises KeyError (0 is not a key of a
string-keyed JSON object), anything else TypeError. -/
def firstItem : JVal → Except TryErr JVal
  | .jarr (x :: _) => .ok x
  | .jarr [] => .error (.uncaught "IndexError")
  | .jstr s =>
    match s.data with
    | c :: _ => .ok (.jstr c.toString)
    | [] => .error (.uncaught "IndexError")
  | .jobj _ => .error (.uncaught "KeyError")
  | _ => .error (.caught "TypeError")

/-- Python subscript `x['id_str']`: a dict lookup that raises KeyError on a
missing key; subscripting a non-dict with a string raises TypeError. -/
def getIdStr : JVal → Except TryErr JVal
  | .jobj fs =>
    match jget fs "id_str" with
    | some v => .ok v
    | none => .error (.uncaught "KeyError")
  | _ => .error (.caught "TypeError")

/-- Whitespace accepted around an integer literal by Python `int`. -/
def isSpaceChar (c : Char) : Bool := c == ' ' || c == '\t' || c == '\n' || c == '\r'

/-- Removal of leading and trailing whitespace from a character list. -/
def trimChars (l : List Char) : List Char :=
  ((l.dropWhile isSpaceChar).reverse.dropWhile isSpaceChar).reverse

/-- Accumulator loop for `digitsToNat`. -/
def digitsToNatAux : List Char → Nat → Option Nat
  | [], acc => some acc
  | c :: cs, acc =>
    if 48 ≤ c.toNat && c.toNat ≤ 57 then digitsToNatAux cs (acc * 10 + (c.toNat - 48))
    else none

/-- Reading a non-empty run of decimal digits as a natural number. -/
def digitsToNat : List Char → Option Nat
  | [] => none
  | l => digitsToNatAux l 0

/-- The integer literals accepted by Python `int` applied to a string:
optional surrounding whitespace, an optional sign, then decimal digits. -/
def strToInt (s : String) : Option Int :=
  match trimChars s.data with
  | '-' :: rest => (digitsToNat rest).map (fun n => -(n : Int))
  | '+' :: rest => (digitsToNat rest).map (fun n => (n : Int))
  | l => (digitsToNat l).map (fun n => (n : Int))

/-- Python `int(x)`: parses a string (ValueError when not an integer
literal), passes integers through, maps booleans to 0 and 1, and raises
TypeError elsewhere. -/
def pyInt : JVal → Except TryErr Int
  | .jstr s =>
    match strToInt s with
    | some n => .ok n
    | none => .error (.caught "ValueError")
  | .jnum n => .ok n
  | .jbool b => .ok (if b then 1 else 0)
  | _ => .error (.caught "TypeError")

/-- Python iteration `for tweet in statuses`: a list yields its elements, a
string its characters, a dict its keys; numbers, booleans and null raise
TypeError (uncaught, the loop is outside the try block). -/
def pyIterList : JVal → Except String (List JVal)
  | .jarr xs => .ok xs
  | .jstr s => .ok (s.data.map (fun c => .jstr c.toString))
  | .jobj fs => .ok (fs.map (fun p => .jstr p.1))
  | _ => .error "TypeError"

/-- The bound computed inside the try block of `search_gen` (api.py line
320): `int(content['statuses'][0]['id_str']) + 1`. -/
def computeNextSinceId (statuses : JVal) : Except TryErr Int :=
  match firstItem statuses with
  | .error e => .error e
  | .ok first =>
    match getIdStr first with
    | .error e => .error e
    | .ok idv =>
      match pyInt idv with
      | .error e => .error e
      | .ok n => .ok (n + 1)

/-- The outcome of one page step of the generator: termination with the
tweets yielded so far, recursion with updated parameters, or an exception
raised after the yields. -/
inductive GenStep where
  | stop (yielded : List JVal)
  | next (yielded : List JVal) (params : List (String × JVal))
  | fail (yielded : List JVal) (e : PyError)

/-- Embedding of one recursion step of `Twython.search_gen` (api.py lines
310 to 325) applied to the decoded page `content`: terminate when the
statuses field is absent or falsy, otherwise yield every status in order
and, unless the caller already pinned since_id, compute the next bound
from the first status, converting TypeError and ValueError into the
pagination TwythonError. The recursive call then runs on the returned
parameters. -/
def search_gen_step (params : List (String × JVal)) (content : JVal) : GenStep :=
  match content with
  | .jobj fields =>
    let statuses := (jget fields "statuses").getD .jnull
    if !truthy statuses then .stop []
    else
      match pyIterList statuses with
      | .error e => .fail [] (.untyped e)
      | .ok tweets =>
        if params.any (fun p => p.1 == "since_id") then .next tweets params
        else
          match computeNextSinceId statuses with
          | .ok n => .next tweets (params ++ [("since_id", .jnum n)])
          | .error (.caught _) =>
            .fail tweets (.typed ⟨.generic,
              .jstr "Unable to generate next page of search results, `page` is not a number.",
              none, none⟩)
          | .error (.uncaught e) => .fail tweets (.untyped e)
  | _ => .fail [] (.untyped "AttributeError")

/-- The body shapes on which the error classifier of `_request` completes
with a typed exception for a failing status: the body must have decoded to
an object (or failed to parse, which substitutes an empty object), a
non-empty errors list must start with a message-carrying object, and the
resulting message must support the Python membership test unless the
status is 429 or 401, where classification short-circuits. -/
def errorsShapeHandled (status : Nat) (content : JVal) : Bool :=
  match content with
  | .jobj fs =>
    match jget fs "errors" with
    | none => true
    | some (.jarr []) => true
    | some (.jarr (first :: _)) =>
      match first with
      | .jobj ffs =>
        match jget ffs "message" with
        | some m => status == 429 || status == 401 || pyInSupported m
        | none => false
      | _ => false
    | some v => status == 429 || status == 401 || pyInSupported v
  | _ => false


/-! Helper lemmas about the branches of `processResponse`, shared by the
claim theorems below. -/

theorem processResponse_extract_error (a : Option String) (resp : Response)
    (parsed : Option JVal) (e : String) (hgt : resp.status_code > 304)
    (hm : extractedMessage parsed = .error e) :
    (processResponse a resp parsed).2 = .error (.untyped e) := by
  simp only [processResponse, hm, if_pos hgt]

theorem processResponse_429 (a : Option String) (resp : Response)
    (parsed : Option JVal) (m : JVal) (hgt : resp.status_code > 304)
    (hm : extractedMessage parsed = .ok m) (h429 : resp.status_code = 429) :
    (processResponse a resp parsed).2 =
      .error (.typed ⟨.rateLimit, m, some resp.status_code,
        headerGet resp.headers "retry-after"⟩) := by
  simp only [processResponse, hm, if_pos hgt, if_pos h429]

theorem processResponse_401 (a : Option String) (resp : Response)
    (parsed : Option JVal) (m : JVal) (hgt : resp.status_code > 304)
    (hm : extractedMessage parsed = .ok m) (h429 : resp.status_code ≠ 429)
    (h401 : resp.status_code = 401) :
    (processResponse a resp parsed).2 =
      .error (.typed ⟨.auth, m, some resp.status_code,
        headerGet resp.headers "retry-after"⟩) := by
  simp only [processResponse, hm, if_pos hgt, if_neg h429, if_pos h401]

theorem processResponse_pyIn (a : Option String) (resp : Response)
    (parsed : Option JVal) (m : JVal) (b : Bool) (hgt : resp.status_code > 304)
    (hm : extractedMessage parsed = .ok m) (h429 : resp.status_code ≠ 429)
    (h401 : resp.status_code ≠ 401)
    (hin : pyIn "Bad Authentication data" m = .ok b) :
    (processResponse a resp parsed).2 =
      .error (.typed ⟨if b then .auth else .generic, m, some resp.status_code,
        headerGet resp.headers "retry-after"⟩) := by
  cases b <;>
    simp [processResponse, hm, hin, if_pos hgt, if_neg h429, if_neg h401]

theorem processResponse_pyIn_error (a : Option String) (resp : Response)
    (parsed : Option JVal) (m : JVal) (e : String) (hgt : resp.status_code > 304)
    (hm : extractedMessage parsed = .ok m) (h429 : resp.status_code ≠ 429)
    (h401 : resp.status_code ≠ 401)
    (hin : pyIn "Bad Authentication data" m = .error e) :
    (processResponse a resp parsed).2 = .error (.untyped e) := by
  simp only [processResponse, hm, hin, if_pos hgt, if_neg h429, if_neg h401]

theorem processResponse_le304 (a : Option String) (resp : Response)
    (parsed : Option JVal) (hle : resp.status_code ≤ 304)
    (h : parsed.isSome = true ∨ resp.status_code = 200 ∨ resp.status_code = 201 ∨
      resp.status_code = 202) :
    (processResponse a resp parsed).2 = .ok (parsed.getD (.jobj [])) := by
  have hgt : ¬ resp.status_code > 304 := by omega
  rcases h with h | h | h | h
  · cases parsed with
    | none => simp at h
    | some v => simp only [processResponse, if_neg hgt, Option.isNone_some,
        Bool.false_and, Bool.false_eq_true, if_false, Option.getD_some]
  all_goals
    simp only [processResponse, if_neg hgt, h]
    simp


/-! Claim theorems. -/

/-- Claim C8: construction selects the signing mode as a total function of
the four credential fields: app-only signing exactly when app key and app
secret are present and both user tokens are absent; full user-context
signing exactly when all four are present; every other combination yields
unsigned requests. -/
theorem initAuth_mode_selection :
    ∀ app_key app_secret oauth_token oauth_token_secret : Option String,
      (initAuth app_key app_secret oauth_token oauth_token_secret = .appOnly ↔
        (app_key.isSome = true ∧ app_secret.isSome = true ∧
         oauth_token = none ∧ oauth_token_secret = none)) ∧
      (initAuth app_key app_secret oauth_token oauth_token_secret = .userContext ↔
        (app_key.isSome = true ∧ app_secret.isSome = true ∧
         oauth_token.isSome = true ∧ oauth_token_secret.isSome = true)) ∧
      (initAuth app_key app_secret oauth_token oauth_token_secret = .unsigned ↔
        ¬((app_key.isSome = true ∧ app_secret.isSome = true ∧
           oauth_token = none ∧ oauth_token_secret = none) ∨
          (app_key.isSome = true ∧ app_secret.isSome = true ∧
           oauth_token.isSome = true ∧ oauth_token_secret.isSome = true))) := by
  intro k s t ts
  cases k <;> cases s <;> cases t <;> cases ts <;> simp [initAuth]

/-- Witness for C8 at concrete credentials: all four present gives user
context, key and secret alone give app-only, a lone user token gives
unsigned. -/
theorem initAuth_mode_selection_witness :
    initAuth (some "k") (some "s") none none = .appOnly ∧
    initAuth (some "k") (some "s") (some "t") (some "x") = .userContext ∧
    initAuth (some "k") (some "s") (some "t") none = .unsigned := by
  refine ⟨?_, ?_, ?_⟩
  · exact (initAuth_mode_selection (some "k") (some "s") none none).1.mpr
      (by simp)
  · exact (initAuth_mode_selection (some "k") (some "s") (some "t") (some "x")).2.1.mpr
      (by simp)
  · exact (initAuth_mode_selection (some "k") (some "s") (some "t") none).2.2.mpr
      (by simp)

/-- Claim C6: get_lastfunction_header raises exactly when no call has ever
been made; once a call has occurred it never raises, returning the named
header value when present and None otherwise. -/
theorem get_lastfunction_header_spec :
    ∀ (last : Option LastCall) (h : String),
      ((∃ e, get_lastfunction_header last h = .error e) ↔ last = none) ∧
      (∀ lc, last = some lc →
        get_lastfunction_header last h = .ok (headerGet lc.headers h)) := by
  intro last h
  cases last <;> simp [get_lastfunction_header]

/-- Witness for C6: with a recorded call the rate-limit header is looked up
case-insensitively and a missing header gives None; before any call the
function raises. -/
theorem get_lastfunction_header_spec_witness :
    get_lastfunction_header
        (some { api_call := none, api_error := none, cookies := [],
                headers := [("X-Rate-Limit-Limit", "13")], status_code := 200,
                url := "u", content := "" }) "x-rate-limit-limit" = .ok (some "13") ∧
    get_lastfunction_header
        (some { api_call := none, api_error := none, cookies := [],
                headers := [("X-Rate-Limit-Limit", "13")], status_code := 200,
                url := "u", content := "" }) "retry-after" = .ok none ∧
    (∃ e, get_lastfunction_header none "retry-after" = .error e) := by
  refine ⟨?_, ?_, ?_⟩
  · exact ((get_lastfunction_header_spec _ "x-rate-limit-limit").2 _ rfl).trans (by rfl)
  · exact ((get_lastfunction_header_spec _ "retry-after").2 _ rfl).trans (by rfl)
  · exact (get_lastfunction_header_spec none "retry-after").1.mpr rfl

/-- Claim C3: a response body that fails to parse as JSON combined with an
accepted status code (200, 201 or 202) is returned as an empty mapping, a
successful result, raising nothing. -/
theorem malformed_json_accepted_status_ok :
    ∀ (a : Option String) (resp : Response),
      resp.status_code = 200 ∨ resp.status_code = 201 ∨ resp.status_code = 202 →
      (processResponse a resp none).2 = .ok (.jobj []) := by
  intro a resp h
  have hle : resp.status_code ≤ 304 := by rcases h with h | h | h <;> omega
  exact processResponse_le304 a resp none hle (Or.inr h)

/-- Witness for C3 at a concrete 200 response with an unparseable body. -/
theorem malformed_json_accepted_status_ok_witness :
    (processResponse none
      { status_code := 200, headers := [], cookies := [], url := "u",
        text := "not json" } none).2 = .ok (.jobj []) :=
  malformed_json_accepted_status_ok none _ (Or.inl rfl)

/-- Claim C2 counterexample: a status 304 response with an unparseable body
makes the pipeline raise the invalid-JSON TwythonError, refuting that every
status at most 304 returns without raising regardless of body content. -/
theorem status304_unparseable_raises :
    (processResponse none
      { status_code := 304, headers := [], cookies := [], url := "u",
        text := "<html>" } none).2 =
      .error (.typed ⟨.generic,
        .jstr "Response was not valid JSON, unable to decode.", none, none⟩) := by
  rfl

/-- Claim C2 (amended): for every status code at most 304 the pipeline
returns without raising provided the body parsed as JSON or the status is
one of the accepted codes 200, 201, 202; with an unparseable body and a
status at most 304 outside the accepted set it raises the generic
invalid-JSON error instead (see the counterexample). -/
theorem le304_returns_when_parsed_or_accepted :
    ∀ (a : Option String) (resp : Response) (parsed : Option JVal),
      resp.status_code ≤ 304 →
      (parsed.isSome = true ∨ resp.status_code = 200 ∨ resp.status_code = 201 ∨
        resp.status_code = 202) →
      (processResponse a resp parsed).2 = .ok (parsed.getD (.jobj [])) :=
  processResponse_le304

/-- Witness for the amended C2 at a 304 response whose body parsed. -/
theorem le304_returns_when_parsed_or_accepted_witness :
    (processResponse none
      { status_code := 304, headers := [], cookies := [], url := "u",
        text := "x" } (some (.jobj [("a", .jnum 1)]))).2 =
      .ok (.jobj [("a", .jnum 1)]) :=
  le304_returns_when_parsed_or_accepted none _ _ (by decide) (Or.inl rfl)

/-- Claim C7: evaluating the authentication-token flow at a request where
the caller supplied a callback URL and the server response does not confirm
callback support: api.py line 237 reads self.callback_url, an attribute
that Twython.__init__ never assigns, so the call crashes with an untyped
AttributeError instead of returning an auth_url carrying the
caller-supplied callback as an oauth_callback parameter. -/
theorem get_authentication_tokens_unconfirmed_callback_crashes :
    get_authentication_tokens (some "https://example.com/cb") false ""
        { status_code := 200, headers := [], cookies := [], url := "u",
          text := "oauth_token=abc&oauth_token_secret=def" } =
      .error (.untyped "AttributeError") := by
  rfl

/-- Claim C10: get_authorized_tokens never inspects the status code: its
result depends only on the response text; a body parsing to a non-empty
mapping is returned as a success, and an empty parse fails with the generic
TwythonError, not the auth error. The final part contrasts this with
get_authentication_tokens, which rejects a 401 with the auth error before
parsing. -/
theorem get_authorized_tokens_spec :
    ∀ resp : Response,
      (∀ resp2 : Response, resp2.text = resp.text →
        get_authorized_tokens resp2 = get_authorized_tokens resp) ∧
      (parse_qsl resp.text ≠ [] →
        get_authorized_tokens resp = .ok (parse_qsl resp.text)) ∧
      (parse_qsl resp.text = [] →
        get_authorized_tokens resp =
          .error ⟨.generic, .jstr "Unable to decode authorized tokens.", none, none⟩) ∧
      (∀ resp3 : Response, resp3.status_code = 401 →
        get_authentication_tokens (some "cb") false "" resp3 =
          .error (.typed ⟨.auth, .jstr resp3.text, some 401, none⟩)) := by
  intro resp
  refine ⟨?_, ?_, ?_, ?_⟩
  · intro r2 h
    unfold get_authorized_tokens
    rw [h]
  · intro h
    unfold get_authorized_tokens
    rw [if_neg (by simpa [List.isEmpty_iff] using h)]
  · intro h
    unfold get_authorized_tokens
    rw [if_pos (by simpa [List.isEmpty_iff] using h)]
  · intro r3 h
    unfold get_authentication_tokens
    simp [h]

/-- Witness for C10: a status of 999 is accepted when the body parses, an
empty body fails generically, and the request-token step rejects a 401. -/
theorem get_authorized_tokens_spec_witness :
    get_authorized_tokens
        { status_code := 999, headers := [], cookies := [], url := "u",
          text := "oauth_token=abc" } = .ok [("oauth_token", "abc")] ∧
    get_authorized_tokens
        { status_code := 200, headers := [], cookies := [], url := "u",
          text := "" } =
      .error ⟨.generic, .jstr "Unable to decode authorized tokens.", none, none⟩ ∧
    get_authentication_tokens (some "cb") false ""
        { status_code := 401, headers := [], cookies := [], url := "u",
          text := "denied" } = .error (.typed ⟨.auth, .jstr "denied", some 401, none⟩) := by
  refine ⟨?_, ?_, ?_⟩
  · exact ((get_authorized_tokens_spec _).2.1 (by decide)).trans (by rfl)
  · exact (get_authorized_tokens_spec
      { status_code := 200, headers := [], cookies := [], url := "u",
        text := "" }).2.2.1 (by decide)
  · exact ((get_authorized_tokens_spec
      { status_code := 401, headers := [], cookies := [], url := "u",
        text := "denied" }).2.2.2 _ rfl).trans (by rfl)


/-- A failing status always makes the pipeline raise, whatever the body. -/
theorem processResponse_gt304_fails (a : Option String) (resp : Response)
    (parsed : Option JVal) (hgt : resp.status_code > 304) :
    ∃ err, (processResponse a resp parsed).2 = .error err := by
  cases hm : extractedMessage parsed with
  | error e => exact ⟨_, processResponse_extract_error a resp parsed e hgt hm⟩
  | ok msg =>
    by_cases h429 : resp.status_code = 429
    · exact ⟨_, processResponse_429 a resp parsed msg hgt hm h429⟩
    · by_cases h401 : resp.status_code = 401
      · exact ⟨_, processResponse_401 a resp parsed msg hgt hm h429 h401⟩
      · cases hin : pyIn "Bad Authentication data" msg with
        | error e =>
          exact ⟨_, processResponse_pyIn_error a resp parsed msg e hgt hm h429 h401 hin⟩
        | ok b => exact ⟨_, processResponse_pyIn a resp parsed msg b hgt hm h429 h401 hin⟩

/-- The record written by `processResponse`: the response fields are copied
verbatim and api_error holds the extracted message exactly when the status
is failing and extraction succeeded. -/
theorem processResponse_record (a : Option String) (resp : Response)
    (parsed : Option JVal) :
    (processResponse a resp parsed).1 =
      { api_call := a,
        api_error :=
          if resp.status_code > 304 then (extractedMessage parsed).toOption else none,
        cookies := resp.cookies, headers := resp.headers,
        status_code := resp.status_code, url := resp.url, content := resp.text } := by
  by_cases hgt : resp.status_code > 304
  · cases hm : extractedMessage parsed with
    | error e => simp [processResponse, hm, if_pos hgt, Except.toOption]
    | ok msg =>
      by_cases h429 : resp.status_code = 429
      · simp [processResponse, hm, if_pos hgt, h429, Except.toOption]
      · by_cases h401 : resp.status_code = 401
        · simp [processResponse, hm, if_pos hgt, h429, h401, Except.toOption]
        · cases hin : pyIn "Bad Authentication data" msg with
          | error e =>
            simp [processResponse, hm, hin, if_pos hgt, h429, h401, Except.toOption]
          | ok b =>
            cases b <;>
              simp [processResponse, hm, hin, if_pos hgt, h429, h401, Except.toOption]
  · simp only [processResponse, if_neg hgt]
    split <;> rfl

/-- `pyIn` completes on every supported message shape. -/
theorem pyIn_supported_ok (sub : String) (m : JVal) (h : pyInSupported m = true) :
    ∃ b, pyIn sub m = .ok b := by
  cases m with
  | jstr s => exact ⟨_, rfl⟩
  | jarr xs => exact ⟨_, rfl⟩
  | jobj fs => exact ⟨_, rfl⟩
  | jnull => simp [pyInSupported] at h
  | jbool b => simp [pyInSupported] at h
  | jnum n => simp [pyInSupported] at h

/-- On every handled body shape the message extraction completes, and the
message supports the membership test unless the status short-circuits. -/
theorem extractedMessage_of_handled (status : Nat) (parsed : Option JVal)
    (h : errorsShapeHandled status (parsed.getD (.jobj [])) = true) :
    ∃ m, extractedMessage parsed = .ok m ∧
      (status = 429 ∨ status = 401 ∨ pyInSupported m = true) := by
  unfold extractedMessage
  generalize hg : parsed.getD (.jobj []) = c at h ⊢
  cases c with
  | jobj fs =>
    cases hj : jget fs "errors" with
    | none =>
      refine ⟨.jstr "An error occurred processing your request.", ?_, Or.inr (Or.inr rfl)⟩
      simp only [getErrorsField, hj, Option.getD_none]
      rfl
    | some v =>
      have hbind : (getErrorsField (JVal.jobj fs)).bind extractErrorMessage =
          extractErrorMessage v := by
        simp only [getErrorsField, hj, Option.getD_some]
        rfl
      cases v with
      | jarr l =>
        cases l with
        | nil => exact ⟨.jarr [], by rw [hbind]; rfl, Or.inr (Or.inr rfl)⟩
        | cons first rest =>
          cases first with
          | jobj ffs =>
            cases hmsg : jget ffs "message" with
            | none =>
              exfalso
              simp only [errorsShapeHandled, hj, hmsg] at h
              exact absurd h (by simp)
            | some m =>
              refine ⟨m, ?_, ?_⟩
              · rw [hbind]
                simp only [extractErrorMessage, hmsg]
              · simp only [errorsShapeHandled, hj, hmsg] at h
                have h3 : (status = 429 ∨ status = 401) ∨ pyInSupported m = true := by
                  simpa [Bool.or_eq_true, beq_iff_eq] using h
                tauto
          | jnull => exfalso; simp only [errorsShapeHandled, hj] at h; simp at h
          | jbool b => exfalso; simp only [errorsShapeHandled, hj] at h; simp at h
          | jnum n => exfalso; simp only [errorsShapeHandled, hj] at h; simp at h
          | jstr s => exfalso; simp only [errorsShapeHandled, hj] at h; simp at h
          | jarr l2 => exfalso; simp only [errorsShapeHandled, hj] at h; simp at h
      | jnull =>
        refine ⟨.jnull, by rw [hbind]; rfl, ?_⟩
        have h2 : status = 429 ∨ status = 401 := by
          simp only [errorsShapeHandled, hj] at h
          simpa [pyInSupported, Bool.or_eq_true, beq_iff_eq] using h
        rcases h2 with h2 | h2
        · exact Or.inl h2
        · exact Or.inr (Or.inl h2)
      | jbool b =>
        refine ⟨.jbool b, by rw [hbind]; rfl, ?_⟩
        have h2 : status = 429 ∨ status = 401 := by
          simp only [errorsShapeHandled, hj] at h
          simpa [pyInSupported, Bool.or_eq_true, beq_iff_eq] using h
        rcases h2 with h2 | h2
        · exact Or.inl h2
        · exact Or.inr (Or.inl h2)
      | jnum n =>
        refine ⟨.jnum n, by rw [hbind]; rfl, ?_⟩
        have h2 : status = 429 ∨ status = 401 := by
          simp only [errorsShapeHandled, hj] at h
          simpa [pyInSupported, Bool.or_eq_true, beq_iff_eq] using h
        rcases h2 with h2 | h2
        · exact Or.inl h2
        · exact Or.inr (Or.inl h2)
      | jstr s => exact ⟨.jstr s, by rw [hbind]; rfl, Or.inr (Or.inr rfl)⟩
      | jobj fs2 => exact ⟨.jobj fs2, by rw [hbind]; rfl, Or.inr (Or.inr rfl)⟩
  | jnull => simp [errorsShapeHandled] at h
  | jbool b => simp [errorsShapeHandled] at h
  | jnum n => simp [errorsShapeHandled] at h
  | jstr s => simp [errorsShapeHandled] at h
  | jarr l => simp [errorsShapeHandled] at h

/-- Claim C1 counterexample: a status 500 response whose body carries a
scalar numeric errors field makes the membership test run on a number, an
untyped TypeError, so the call does not fail with one of the typed
exceptions even though the status is above 304. -/
theorem scalar_numeric_errors_untyped_failure :
    (processResponse none
      { status_code := 500, headers := [], cookies := [], url := "u",
        text := "e" } (some (.jobj [("errors", .jnum 5)]))).2 =
      .error (.untyped "TypeError") := by
  rfl

/-- Claim C1 (amended): every response with status above 304 makes the call
fail; whenever the error-message extraction completes, it fails with the
typed exception chosen as: status 429 gives the rate-limit error carrying
the retry-after header value (absent when the header is absent); otherwise
status 401 gives the auth error, as does a message on which the Python
membership test for "Bad Authentication data" succeeds; any other status
gives the generic error; each typed error carries the extracted message and
the status code. On body shapes where extraction or the membership test
itself raises, the failure is an untyped Python error instead (see the
counterexample). -/
theorem failing_status_typed_classification :
    ∀ (a : Option String) (resp : Response) (parsed : Option JVal),
      resp.status_code > 304 →
      (∃ err, (processResponse a resp parsed).2 = .error err) ∧
      (∀ m : JVal, extractedMessage parsed = .ok m →
        (resp.status_code = 429 →
          (processResponse a resp parsed).2 = .error (.typed ⟨.rateLimit, m,
            some resp.status_code, headerGet resp.headers "retry-after"⟩)) ∧
        (resp.status_code ≠ 429 → resp.status_code = 401 →
          (processResponse a resp parsed).2 = .error (.typed ⟨.auth, m,
            some resp.status_code, headerGet resp.headers "retry-after"⟩)) ∧
        (resp.status_code ≠ 429 → resp.status_code ≠ 401 →
          pyIn "Bad Authentication data" m = .ok true →
          (processResponse a resp parsed).2 = .error (.typed ⟨.auth, m,
            some resp.status_code, headerGet resp.headers "retry-after"⟩)) ∧
        (resp.status_code ≠ 429 → resp.status_code ≠ 401 →
          pyIn "Bad Authentication data" m = .ok false →
          (processResponse a resp parsed).2 = .error (.typed ⟨.generic, m,
            some resp.status_code, headerGet resp.headers "retry-after"⟩))) := by
  intro a resp parsed hgt
  refine ⟨processResponse_gt304_fails a resp parsed hgt, ?_⟩
  intro m hm
  refine ⟨?_, ?_, ?_, ?_⟩
  · intro h429
    exact processResponse_429 a resp parsed m hgt hm h429
  · intro h429 h401
    exact processResponse_401 a resp parsed m hgt hm h429 h401
  · intro h429 h401 hin
    simpa using processResponse_pyIn a resp parsed m true hgt hm h429 h401 hin
  · intro h429 h401 hin
    simpa using processResponse_pyIn a resp parsed m false hgt hm h429 h401 hin

/-- Witness for the amended C1: a 429 with Retry-After 30 raises the
rate-limit error carrying the advisory value, and a plain 500 with a
message list raises the generic error with that message and code. -/
theorem failing_status_typed_classification_witness :
    (processResponse none
      { status_code := 429, headers := [("Retry-After", "30")], cookies := [],
        url := "u", text := "" } none).2 =
      .error (.typed ⟨.rateLimit, .jstr "An error occurred processing your request.",
        some 429, some "30"⟩) ∧
    (processResponse none
      { status_code := 500, headers := [], cookies := [], url := "u",
        text := "" } (some (.jobj [("errors",
          .jarr [.jobj [("message", .jstr "X")]])]))).2 =
      .error (.typed ⟨.generic, .jstr "X", some 500, none⟩) := by
  constructor
  · exact ((failing_status_typed_classification none
      { status_code := 429, headers := [("Retry-After", "30")], cookies := [],
        url := "u", text := "" } none (by decide)).2
      (.jstr "An error occurred processing your request.") rfl).1 rfl
  · exact ((failing_status_typed_classification none
      { status_code := 500, headers := [], cookies := [], url := "u",
        text := "" } (some (.jobj [("errors",
          .jarr [.jobj [("message", .jstr "X")]])])) (by decide)).2
      (.jstr "X") rfl).2.2.2 (by decide) (by decide) rfl

/-- Claim C5 counterexample: a status 500 response whose body parses to a
top-level JSON array makes the classifier call a dict method on a list, an
untyped AttributeError, so classification does not complete with a typed
error for every JSON body shape. -/
theorem array_body_untyped_failure :
    (processResponse none
      { status_code := 500, headers := [], cookies := [], url := "v",
        text := "a" } (some (.jarr [.jnum 1]))).2 =
      .error (.untyped "AttributeError") := by
  rfl

/-- Claim C5 (amended): for every status above 304, classification completes
and raises a typed error on every body that fails to parse or parses to an
object whose errors field is handled: absent, an empty list, a non-empty
list whose first element is an object carrying a message that supports the
membership test (unless the status is 429 or 401, which short-circuit), or
a scalar supporting the membership test likewise. On the remaining shapes
(a non-object body, a malformed first list element, or a null, boolean or
numeric message under a status other than 429 and 401) the classifier
raises an untyped Python error instead (see the counterexample). -/
theorem defensive_classification_handled_shapes :
    ∀ (a : Option String) (resp : Response) (parsed : Option JVal),
      resp.status_code > 304 →
      errorsShapeHandled resp.status_code (parsed.getD (.jobj [])) = true →
      ∃ e, (processResponse a resp parsed).2 = .error (.typed e) := by
  intro a resp parsed hgt hshape
  obtain ⟨m, hm, hsup⟩ := extractedMessage_of_handled resp.status_code parsed hshape
  by_cases h429 : resp.status_code = 429
  · exact ⟨_, processResponse_429 a resp parsed m hgt hm h429⟩
  · by_cases h401 : resp.status_code = 401
    · exact ⟨_, processResponse_401 a resp parsed m hgt hm h429 h401⟩
    · have hsup2 : pyInSupported m = true := by
        rcases hsup with h | h | h
        · exact absurd h h429
        · exact absurd h h401
        · exact h
      obtain ⟨b, hb⟩ := pyIn_supported_ok "Bad Authentication data" m hsup2
      exact ⟨_, processResponse_pyIn a resp parsed m b hgt hm h429 h401 hb⟩

/-- Witness for the amended C5: a scalar string errors value at status 500
is classified into a typed error. -/
theorem defensive_classification_handled_shapes_witness :
    ∃ e, (processResponse none
      { status_code := 500, headers := [], cookies := [], url := "u",
        text := "" } (some (.jobj [("errors", .jstr "oops")]))).2 =
      .error (.typed e) :=
  defensive_classification_handled_shapes none
    { status_code := 500, headers := [], cookies := [], url := "u", text := "" }
    (some (.jobj [("errors", .jstr "oops")])) (by decide) (by rfl)

/-- Claim C9 counterexample: at status 304 with an unparseable body the call
fails with the invalid-JSON error, yet the freshly written record carries no
error message, refuting that every failure records the classified message. -/
theorem invalid_json_failure_records_no_error :
    (processResponse (some "search")
      { status_code := 304, headers := [], cookies := [], url := "w",
        text := "garbage" } none).1.api_error = none ∧
    (processResponse (some "search")
      { status_code := 304, headers := [], cookies := [], url := "w",
        text := "garbage" } none).2 =
      .error (.typed ⟨.generic,
        .jstr "Response was not valid JSON, unable to decode.", none, none⟩) :=
  ⟨rfl, rfl⟩

/-- Claim C9 (amended): every invocation overwrites the last-call record
with the endpoint identifier, resolved URL, status code, headers, cookies
and raw response text; on success the error field is cleared; on a failing
status whose message extraction completes the error field holds the
classified message. The invalid-JSON failure on a non-accepted status of at
most 304, however, leaves the error field cleared even though the call
fails (see the counterexample). -/
theorem last_call_record_overwrite :
    ∀ (a : Option String) (resp : Response) (parsed : Option JVal),
      (processResponse a resp parsed).1.api_call = a ∧
      (processResponse a resp parsed).1.url = resp.url ∧
      (processResponse a resp parsed).1.status_code = resp.status_code ∧
      (processResponse a resp parsed).1.headers = resp.headers ∧
      (processResponse a resp parsed).1.cookies = resp.cookies ∧
      (processResponse a resp parsed).1.content = resp.text ∧
      (∀ v, (processResponse a resp parsed).2 = .ok v →
        (processResponse a resp parsed).1.api_error = none) ∧
      (∀ m, resp.status_code > 304 → extractedMessage parsed = .ok m →
        (processResponse a resp parsed).1.api_error = some m) := by
  intro a resp parsed
  refine ⟨?_, ?_, ?_, ?_, ?_, ?_, ?_, ?_⟩
  · rw [processResponse_record]
  · rw [processResponse_record]
  · rw [processResponse_record]
  · rw [processResponse_record]
  · rw [processResponse_record]
  · rw [processResponse_record]
  · intro v hv
    by_cases hgt : resp.status_code > 304
    · obtain ⟨err, he⟩ := processResponse_gt304_fails a resp parsed hgt
      rw [hv] at he
      simp at he
    · rw [processResponse_record]
      simp [hgt]
  · intro m hgt hm
    rw [processResponse_record]
    simp [hgt, hm, Except.toOption]

/-- Witness for the amended C9: a successful 200 call leaves the error
field cleared, a failing 500 call records the default extracted message. -/
theorem last_call_record_overwrite_witness :
    (processResponse (some "endpoint")
      { status_code := 200, headers := [], cookies := [], url := "u",
        text := "t" } (some (.jobj []))).1.api_error = none ∧
    (processResponse (some "endpoint")
      { status_code := 500, headers := [], cookies := [], url := "u",
        text := "t" } none).1.api_error =
      some (.jstr "An error occurred processing your request.") := by
  constructor
  · exact (last_call_record_overwrite (some "endpoint")
      { status_code := 200, headers := [], cookies := [], url := "u", text := "t" }
      (some (.jobj []))).2.2.2.2.2.2.1 (.jobj []) rfl
  · exact (last_call_record_overwrite (some "endpoint")
      { status_code := 500, headers := [], cookies := [], url := "u", text := "t" }
      none).2.2.2.2.2.2.2
      (.jstr "An error occurred processing your request.") (by decide) rfl

/-- Claim C4: one recursion step of search_gen on a page whose statuses
list is non-empty yields every status in received order; when the caller
already pinned since_id the recursion keeps the parameters unchanged;
otherwise the next parameters bind since_id to the integer value of the
FIRST status id_str plus one (in particular ids "5" then "3" give
since_id 6), and a first id that cannot be parsed as an integer raises the
pagination TwythonError (TypeError and ValueError are converted, as the
final part states for every caught conversion failure). -/
theorem search_gen_page_step_spec :
    ∀ (params fields : List (String × JVal)) (t : JVal) (ts : List JVal),
      jget fields "statuses" = some (.jarr (t :: ts)) →
      ((params.any (fun p => p.1 == "since_id")) = true →
        search_gen_step params (.jobj fields) = .next (t :: ts) params) ∧
      ((params.any (fun p => p.1 == "since_id")) = false →
        ∀ (tf : List (String × JVal)) (s : String) (k : Int),
          t = .jobj tf → jget tf "id_str" = some (.jstr s) → strToInt s = some k →
          search_gen_step params (.jobj fields) =
            .next (t :: ts) (params ++ [("since_id", .jnum (k + 1))])) ∧
      ((params.any (fun p => p.1 == "since_id")) = false →
        ∀ (tf : List (String × JVal)) (s : String),
          t = .jobj tf → jget tf "id_str" = some (.jstr s) → strToInt s = none →
          search_gen_step params (.jobj fields) =
            .fail (t :: ts) (.typed ⟨.generic,
              .jstr "Unable to generate next page of search results, `page` is not a number.",
              none, none⟩)) ∧
      ((params.any (fun p => p.1 == "since_id")) = false →
        ∀ nm, computeNextSinceId (.jarr (t :: ts)) = .error (.caught nm) →
          search_gen_step params (.jobj fields) =
            .fail (t :: ts) (.typed ⟨.generic,
              .jstr "Unable to generate next page of search results, `page` is not a number.",
              none, none⟩)) := by
  intro params fields t ts hst
  have hred : search_gen_step params (.jobj fields) =
      (if params.any (fun p => p.1 == "since_id") then GenStep.next (t :: ts) params
       else
         match computeNextSinceId (.jarr (t :: ts)) with
         | .ok n => GenStep.next (t :: ts) (params ++ [("since_id", .jnum n)])
         | .error (.caught e) =>
           GenStep.fail (t :: ts) (.typed ⟨.generic,
             .jstr "Unable to generate next page of search results, `page` is not a number.",
             none, none⟩)
         | .error (.uncaught e) => GenStep.fail (t :: ts) (.untyped e)) := by
    simp only [search_gen_step, hst]
    rfl
  refine ⟨?_, ?_, ?_, ?_⟩
  · intro h
    rw [hred, if_pos h]
  · intro h tf s k ht hid hk
    have hne : ¬ (params.any (fun p => p.1 == "since_id") = true) := by simp [h]
    have hcomp : computeNextSinceId (.jarr (t :: ts)) = .ok (k + 1) := by
      subst ht
      simp only [computeNextSinceId, firstItem, getIdStr, hid, pyInt, hk]
    rw [hred, if_neg hne, hcomp]
  · intro h tf s ht hid hk
    have hne : ¬ (params.any (fun p => p.1 == "since_id") = true) := by simp [h]
    have hcomp : computeNextSinceId (.jarr (t :: ts)) = .error (.caught "ValueError") := by
      subst ht
      simp only [computeNextSinceId, firstItem, getIdStr, hid, pyInt, hk]
    rw [hred, if_neg hne, hcomp]
  · intro h nm hcomp
    have hne : ¬ (params.any (fun p => p.1 == "since_id") = true) := by simp [h]
    rw [hred, if_neg hne, hcomp]

/-- Witness for C4: the spec scenario (ids "5" then "3", empty params)
yields both tweets and binds since_id to 6, while an unparseable id raises
the pagination error after the yields. -/
theorem search_gen_page_step_spec_witness :
    search_gen_step []
        (.jobj [("statuses",
          .jarr [.jobj [("id_str", .jstr "5")], .jobj [("id_str", .jstr "3")]])]) =
      .next [.jobj [("id_str", .jstr "5")], .jobj [("id_str", .jstr "3")]]
        [("since_id", .jnum 6)] ∧
    search_gen_step []
        (.jobj [("statuses", .jarr [.jobj [("id_str", .jstr "abc")]])]) =
      .fail [.jobj [("id_str", .jstr "abc")]]
        (.typed ⟨.generic,
          .jstr "Unable to generate next page of search results, `page` is not a number.",
          none, none⟩) := by
  constructor
  · exact (search_gen_page_step_spec []
      [("statuses", .jarr [.jobj [("id_str", .jstr "5")], .jobj [("id_str", .jstr "3")]])]
      (.jobj [("id_str", .jstr "5")]) [.jobj [("id_str", .jstr "3")]] rfl).2.1
      rfl [("id_str", .jstr "5")] "5" 5 rfl rfl rfl
  · exact (search_gen_page_step_spec []
      [("statuses", .jarr [.jobj [("id_str", .jstr "abc")]])]
      (.jobj [("id_str", .jstr "abc")]) [] rfl).2.2.1
      rfl [("id_str", .jstr "abc")] "abc" rfl rfl rfl

end TwythonModel
